import Mathlib

set_option maxHeartbeats 1000000

/-!
Verification of the NexTask task-list store (`src/vitereact/src/store/main.tsx`).

The store keeps an in-memory list of tasks together with transient UI fields,
and mirrors the list to the browser's local storage after every mutation.
The definitions below are a shallow embedding of that store:

* pure state transformers for the actions (`add_new_task`,
  `toggle_task_completion`, `delete_task`, `set_task_input_description`,
  `clear_error_message`, `load_tasks_from_local_storage`);
* `Date.now()` is passed in as an explicit `now : Nat` parameter;
* the `localStorage.setItem` call performed by a mutation is reported as an
  `Effects.written` value (key and JSON value), and the `setTimeout` used for
  auto-clearing error messages as `Effects.scheduled_clear_ms`;
* JSON values are the `Json` inductive type; `localStorage.getItem` followed
  by `JSON.parse` is abstracted by a `storage : String → ReadOutcome` map;
* the `_exc` variants make the exception flow explicit: the outcome of the
  unguarded `localStorage.setItem` call is an `Except` parameter, and a
  thrown error escapes the action exactly as in the source, where no
  try/catch surrounds the write-through.
-/

namespace NexTask

/-- JSON values, as produced by `JSON.parse` / consumed by `JSON.stringify`.
Numbers are modelled as integers (the only numbers the development needs). -/
inductive Json where
  | null : Json
  | bool (b : Bool) : Json
  | num (n : Int) : Json
  | str (s : String) : Json
  | arr (elems : List Json) : Json
  | obj (fields : List (String × Json)) : Json
  deriving Repr

/-- A single task item, `interface Task` in the source. -/
structure Task where
  id : String
  description : String
  completed : Bool
  deriving Repr, DecidableEq

/-- The `app_status` union type of the source. -/
inductive AppStatus where
  | initialized
  | local_storage_unavailable
  | error
  deriving Repr, DecidableEq

/-- The store's state fields (`interface AppState` in the source).
`error_message` is optional in the source (`undefined` when absent). -/
structure AppState where
  app_status : AppStatus
  has_persisted_data : Bool
  task_input_description : String
  tasks_list : List Task
  is_loading_tasks : Bool
  error_message : Option String
  deriving Repr, DecidableEq

/-- The observable side effects of one action: the `localStorage.setItem`
call (key and stored JSON value) if one happens, and the delay of the
`setTimeout(() => clear_error_message(), …)` call if one is scheduled. -/
structure Effects where
  written : Option (String × Json)
  scheduled_clear_ms : Option Nat

/-- `const LOCAL_STORAGE_KEY = 'nex_task_tasks'`. -/
def LOCAL_STORAGE_KEY : String := "nex_task_tasks"

/-- The `name: 'nex_task_store'` option of the persist middleware. -/
def PERSIST_MIDDLEWARE_KEY : String := "nex_task_store"

/-- `const TASK_DESCRIPTION_MAX_LENGTH = 256`. -/
def TASK_DESCRIPTION_MAX_LENGTH : Nat := 256

/-- The whitespace code points removed by `String.prototype.trim`
(tab, LF, VT, FF, CR, space, NBSP, BOM; the rare Unicode space
separators are omitted, no claim depends on them). -/
def isJsWhitespace (c : Char) : Bool :=
  c == ' ' || c == '\t' || c == '\n' || c == '\r' ||
  c.val == 11 || c.val == 12 || c.val == 160 || c.val == 65279

/-- `String.prototype.trim`: drop leading and trailing whitespace. -/
def jsTrim (s : String) : String :=
  String.mk (((s.data.dropWhile isJsWhitespace).reverse.dropWhile isJsWhitespace).reverse)

/-- `JSON.stringify` of a single task: an object with exactly the fields
`id`, `description`, `completed`. -/
def taskToJson (t : Task) : Json :=
  Json.obj [("id", Json.str t.id), ("description", Json.str t.description),
            ("completed", Json.bool t.completed)]

/-- `JSON.stringify(updated_tasks)`: the JSON array of the tasks. This is the
value every write-through stores under `LOCAL_STORAGE_KEY`. -/
def encodeTasks (tasks : List Task) : Json :=
  Json.arr (tasks.map taskToJson)

/-- The store's initial state (`--- State Initialization ---` in the source). -/
def initial_state : AppState :=
  { app_status := AppStatus.initialized
    has_persisted_data := false
    task_input_description := ""
    tasks_list := []
    is_loading_tasks := true
    error_message := none }

/-- `clear_error_message`: sets `error_message` to `undefined`. -/
def clear_error_message (s : AppState) : AppState :=
  { s with error_message := none }

/-- `set_task_input_description`: store the text verbatim, then clear any
active error message. -/
def set_task_input_description (s : AppState) (description : String) : AppState :=
  let s1 := { s with task_input_description := description }
  if s1.error_message.isSome then clear_error_message s1 else s1

/-- `add_new_task`. `now` is the value of `Date.now()` at the call.
Returns the boolean result, the new state, and the side effects. -/
def add_new_task (s : AppState) (now : Nat) : Bool × AppState × Effects :=
  let trimmed_description := jsTrim s.task_input_description
  if trimmed_description = "" then
    (false, { s with error_message := some "Task cannot be empty." },
      { written := none, scheduled_clear_ms := some 3000 })
  else if trimmed_description.length > TASK_DESCRIPTION_MAX_LENGTH then
    let too_long_message : String :=
      "Task is too long (max " ++ toString TASK_DESCRIPTION_MAX_LENGTH ++ " characters)."
    (false, { s with error_message := some too_long_message },
      { written := none, scheduled_clear_ms := some 3000 })
  else
    let new_task : Task :=
      { id := toString now, description := trimmed_description, completed := false }
    let updated_tasks := s.tasks_list ++ [new_task]
    (true,
      { s with tasks_list := updated_tasks
               task_input_description := ""
               has_persisted_data := true },
      { written := some (LOCAL_STORAGE_KEY, encodeTasks updated_tasks),
        scheduled_clear_ms := none })

/-- The per-element update of `toggle_task_completion`'s `.map` callback:
`task.id === task_id ? { ...task, completed: !task.completed } : task`. -/
def toggleFlip (task_id : String) (task : Task) : Task :=
  if task.id = task_id then { task with completed := !task.completed } else task

/-- `toggle_task_completion`. -/
def toggle_task_completion (s : AppState) (task_id : String) : AppState × Effects :=
  let updated_tasks := s.tasks_list.map (toggleFlip task_id)
  ({ s with tasks_list := updated_tasks },
    { written := some (LOCAL_STORAGE_KEY, encodeTasks updated_tasks),
      scheduled_clear_ms := none })

/-- `delete_task`. -/
def delete_task (s : AppState) (task_id : String) : AppState × Effects :=
  let updated_tasks := s.tasks_list.filter (fun task => task.id ≠ task_id)
  ({ s with tasks_list := updated_tasks
            has_persisted_data := decide (updated_tasks.length > 0) },
    { written := some (LOCAL_STORAGE_KEY, encodeTasks updated_tasks),
      scheduled_clear_ms := none })

/-- What `localStorage.getItem(key)` followed by `JSON.parse` yields for a key:
the read or parse throws, the slot is absent (`null`), or it parses to a
JSON value. -/
inductive ReadOutcome where
  | throws (msg : String)
  | absent
  | parsed (j : Json)
  deriving Repr

/-- The state fields touched by `load_tasks_from_local_storage`. The source
assigns the raw `JSON.parse` result to `tasks_list` (TypeScript checks
nothing at runtime), so here `tasks_list` holds raw JSON elements. -/
structure LoadState where
  app_status : AppStatus
  has_persisted_data : Bool
  tasks_list : List Json
  is_loading_tasks : Bool
  error_message : Option String

/-- The `try` block of `load_tasks_from_local_storage`: a storage-level throw
escapes as `Except.error`, every other branch returns the updated state. -/
def load_body (s : LoadState) (read : ReadOutcome) : Except String LoadState :=
  match read with
  | ReadOutcome.throws msg => Except.error msg
  | ReadOutcome.absent =>
    Except.ok { s with tasks_list := [], has_persisted_data := false }
  | ReadOutcome.parsed j =>
    match j with
    | Json.arr parsed_tasks =>
      Except.ok { s with tasks_list := parsed_tasks
                         has_persisted_data := decide (parsed_tasks.length > 0)
                         app_status := AppStatus.initialized }
    | _ =>
      Except.ok { s with tasks_list := []
                         app_status := AppStatus.error
                         error_message := some "Corrupted data in local storage." }

/-- `load_tasks_from_local_storage`: sets `is_loading_tasks` on entry, reads
the slot at `LOCAL_STORAGE_KEY`, catches any storage-level throw in the
`catch` branch, and clears `is_loading_tasks` in the `finally` block. -/
def load_tasks_from_local_storage (s : LoadState) (storage : String → ReadOutcome) :
    LoadState :=
  let s0 := { s with is_loading_tasks := true }
  let s1 :=
    match load_body s0 (storage LOCAL_STORAGE_KEY) with
    | Except.ok s2 => s2
    | Except.error _ =>
      { s0 with tasks_list := []
                app_status := AppStatus.local_storage_unavailable
                error_message := some
                  "Failed to load data from browser storage. Data might be corrupted or storage is full."
                has_persisted_data := false }
  { s1 with is_loading_tasks := false }

/-- The exception semantics of the write-through: when the action performs a
`localStorage.setItem` call, the call's outcome is `setItem_result`; the
source wraps this call in no try/catch, so a thrown error escapes. -/
def run_write_through (eff : Effects) (setItem_result : Except String Unit) :
    Except String Unit :=
  match eff.written with
  | none => Except.ok ()
  | some _ => setItem_result

/-- `add_new_task` with the write-through's exception flow made explicit:
a throw from `setItem` propagates to the caller (the in-memory `set` has
already run by then, but the caller sees the uncaught error). -/
def add_new_task_exc (s : AppState) (now : Nat) (setItem_result : Except String Unit) :
    Except String (Bool × AppState) :=
  match run_write_through (add_new_task s now).2.2 setItem_result with
  | Except.ok _ => Except.ok ((add_new_task s now).1, (add_new_task s now).2.1)
  | Except.error e => Except.error e

/-- `toggle_task_completion` with the write-through's exception flow explicit. -/
def toggle_task_completion_exc (s : AppState) (task_id : String)
    (setItem_result : Except String Unit) : Except String AppState :=
  match run_write_through (toggle_task_completion s task_id).2 setItem_result with
  | Except.ok _ => Except.ok (toggle_task_completion s task_id).1
  | Except.error e => Except.error e

/-- `delete_task` with the write-through's exception flow explicit. -/
def delete_task_exc (s : AppState) (task_id : String)
    (setItem_result : Except String Unit) : Except String AppState :=
  match run_write_through (delete_task s task_id).2 setItem_result with
  | Except.ok _ => Except.ok (delete_task s task_id).1
  | Except.error e => Except.error e

/-- The persist middleware's `partialize` selector: the slice of the state it
retains, as a JSON object — exactly `tasks_list` and `has_persisted_data`. -/
def persistedSlice (s : AppState) : Json :=
  Json.obj [("tasks_list", encodeTasks s.tasks_list),
            ("has_persisted_data", Json.bool s.has_persisted_data)]

/-- The top-level keys of a JSON object (empty for non-objects). -/
def topLevelKeys : Json → List String
  | Json.obj fields => fields.map Prod.fst
  | _ => []

/-- Property access on a parsed JSON object: the value of the first field
with the given key. -/
def lookupField (fields : List (String × Json)) (key : String) : Option Json :=
  (fields.find? (fun p => p.fst == key)).map Prod.snd

/-- Modelled from the spec: a JSON value is "Task-shaped" when it is an
object with a string `id`, a string `description` and a boolean `completed`.
The source performs no such per-element check; this definition exists to
compare the source's behaviour with the spec's words. -/
def spec_task_shaped (j : Json) : Bool :=
  match j with
  | Json.obj fields =>
    (match lookupField fields "id" with
     | some (Json.str _) => true
     | _ => false) &&
    (match lookupField fields "description" with
     | some (Json.str _) => true
     | _ => false) &&
    (match lookupField fields "completed" with
     | some (Json.bool _) => true
     | _ => false)
  | _ => false

/-- Modelled from the spec: a valid ordered sequence of Task-shaped records. -/
def spec_task_shaped_seq (j : Json) : Bool :=
  match j with
  | Json.arr elems => elems.all spec_task_shaped
  | _ => false

/-- Modelled from the spec: a JSON object with exactly the two fields
`tasks_list` and `has_persisted_data` (the spec's persisted storage layout). -/
def spec_two_field_obj (j : Json) : Bool :=
  match j with
  | Json.obj fields => fields.map Prod.fst == ["tasks_list", "has_persisted_data"]
  | _ => false

/-- The canonical reading of a Task-shaped JSON value back into a `Task`;
the inverse of `taskToJson`, used to state the persistence round-trip. -/
def taskFromJson (j : Json) : Option Task :=
  match j with
  | Json.obj fields =>
    match lookupField fields "id", lookupField fields "description",
          lookupField fields "completed" with
    | some (Json.str i), some (Json.str d), some (Json.bool c) =>
      some { id := i, description := d, completed := c }
    | _, _, _ => none
  | _ => none

/-! ### Helper lemmas -/

/-- Mapping a function that fixes every element of a list is the identity. -/
theorem map_eq_self_of_forall {α : Type} (f : α → α) (l : List α)
    (h : ∀ x ∈ l, f x = x) : l.map f = l := by
  induction l with
  | nil => rfl
  | cons a l ih => simp_all

/-- `toggleFlip` is an involution on tasks. -/
theorem toggleFlip_involutive (task_id : String) (t : Task) :
    toggleFlip task_id (toggleFlip task_id t) = t := by
  obtain ⟨i, d, c⟩ := t
  unfold toggleFlip
  by_cases h : i = task_id <;> simp [h]

/-- `taskFromJson` inverts `taskToJson`. -/
theorem taskFromJson_taskToJson (t : Task) :
    taskFromJson (taskToJson t) = some t := rfl

/-! ### The claims -/

/-- Concrete run for C1: two tasks added in the same millisecond
(`Date.now()` returns 1000 for both calls). -/
def c1_run : AppState :=
  let s1 := set_task_input_description initial_state "a"
  let s2 := (add_new_task s1 1000).2.1
  let s3 := set_task_input_description s2 "b"
  (add_new_task s3 1000).2.1

/-- C1 (code behaviour at the failing input): task ids are `Date.now()`
values, so two successful adds within the same millisecond produce two tasks
with the same id — `tasks_list` then holds duplicate ids, violating the
claimed uniqueness invariant. -/
theorem spec_C1_duplicate_ids :
    c1_run.tasks_list = [{ id := "1000", description := "a", completed := false },
                         { id := "1000", description := "b", completed := false }] ∧
    ¬ (c1_run.tasks_list.map Task.id).Nodup := by decide

/-- C5: when the trimmed input is non-empty and at most 256 characters,
`add_new_task` returns true, appends exactly one new task (trimmed
description, not completed, id from `Date.now()`) at the end, keeping the
existing tasks and their order, clears the input, and sets
`has_persisted_data`. -/
theorem spec_C5_add_valid (s : AppState) (now : Nat)
    (h1 : jsTrim s.task_input_description ≠ "")
    (h2 : (jsTrim s.task_input_description).length ≤ TASK_DESCRIPTION_MAX_LENGTH) :
    (add_new_task s now).1 = true ∧
    (add_new_task s now).2.1.tasks_list
      = s.tasks_list
        ++ [{ id := toString now, description := jsTrim s.task_input_description,
              completed := false }] ∧
    (add_new_task s now).2.1.task_input_description = "" ∧
    (add_new_task s now).2.1.has_persisted_data = true := by
  have h2' : ¬ (jsTrim s.task_input_description).length > TASK_DESCRIPTION_MAX_LENGTH :=
    Nat.not_lt.mpr h2
  simp [add_new_task, h1, h2']

/-- A state whose input field holds `"  buy milk  "`. -/
def c5_state : AppState :=
  { initial_state with task_input_description := "  buy milk  " }

/-- C5 witness: the valid-add theorem applied to a concrete state. -/
theorem spec_C5_witness :
    (add_new_task c5_state 42).1 = true ∧
    (add_new_task c5_state 42).2.1.tasks_list
      = c5_state.tasks_list
        ++ [{ id := toString 42, description := jsTrim c5_state.task_input_description,
              completed := false }] ∧
    (add_new_task c5_state 42).2.1.task_input_description = "" ∧
    (add_new_task c5_state 42).2.1.has_persisted_data = true :=
  spec_C5_add_valid c5_state 42 (by decide) (by decide)

/-- C6: `add_new_task` returns false exactly when the trimmed input is empty
or longer than 256 characters; in these cases `tasks_list` is untouched and
no write happens, the empty case sets the message "Task cannot be empty.",
the too-long case the length-specific message, and both schedule the
automatic clearing after 3000 ms. -/
theorem spec_C6_add_invalid (s : AppState) (now : Nat) :
    ((add_new_task s now).1 = false ↔
      (jsTrim s.task_input_description = "" ∨
       (jsTrim s.task_input_description).length > TASK_DESCRIPTION_MAX_LENGTH)) ∧
    ((jsTrim s.task_input_description = "" ∨
      (jsTrim s.task_input_description).length > TASK_DESCRIPTION_MAX_LENGTH) →
      (add_new_task s now).2.1.tasks_list = s.tasks_list ∧
      (add_new_task s now).2.2.written = none) ∧
    (jsTrim s.task_input_description = "" →
      (add_new_task s now).2.1.error_message = some "Task cannot be empty." ∧
      (add_new_task s now).2.2.scheduled_clear_ms = some 3000) ∧
    (jsTrim s.task_input_description ≠ "" →
      (jsTrim s.task_input_description).length > TASK_DESCRIPTION_MAX_LENGTH →
      (add_new_task s now).2.1.error_message
        = some ("Task is too long (max " ++ toString TASK_DESCRIPTION_MAX_LENGTH
          ++ " characters).") ∧
      (add_new_task s now).2.2.scheduled_clear_ms = some 3000) := by
  by_cases h1 : jsTrim s.task_input_description = ""
  · simp [add_new_task, h1]
  · by_cases h2 : (jsTrim s.task_input_description).length > TASK_DESCRIPTION_MAX_LENGTH
    · simp [add_new_task, h1, h2]
    · simp [add_new_task, h1, h2]

/-- C6 witness: the theorem applied to a concrete whitespace-only input. -/
theorem spec_C6_witness :
    ((add_new_task { initial_state with task_input_description := "   " } 7).1 = false ↔
      (jsTrim ({ initial_state with
          task_input_description := "   " } : AppState).task_input_description = "" ∨
       (jsTrim ({ initial_state with
          task_input_description := "   " } : AppState).task_input_description).length
         > TASK_DESCRIPTION_MAX_LENGTH)) ∧
    ((jsTrim ({ initial_state with
        task_input_description := "   " } : AppState).task_input_description = "" ∨
      (jsTrim ({ initial_state with
        task_input_description := "   " } : AppState).task_input_description).length
        > TASK_DESCRIPTION_MAX_LENGTH) →
      (add_new_task { initial_state with task_input_description := "   " } 7).2.1.tasks_list
        = ({ initial_state with task_input_description := "   " } : AppState).tasks_list ∧
      (add_new_task { initial_state with task_input_description := "   " } 7).2.2.written
        = none) ∧
    (jsTrim ({ initial_state with
        task_input_description := "   " } : AppState).task_input_description = "" →
      (add_new_task { initial_state with
          task_input_description := "   " } 7).2.1.error_message
        = some "Task cannot be empty." ∧
      (add_new_task { initial_state with
          task_input_description := "   " } 7).2.2.scheduled_clear_ms = some 3000) ∧
    (jsTrim ({ initial_state with
        task_input_description := "   " } : AppState).task_input_description ≠ "" →
      (jsTrim ({ initial_state with
          task_input_description := "   " } : AppState).task_input_description).length
        > TASK_DESCRIPTION_MAX_LENGTH →
      (add_new_task { initial_state with
          task_input_description := "   " } 7).2.1.error_message
        = some ("Task is too long (max " ++ toString TASK_DESCRIPTION_MAX_LENGTH
          ++ " characters).") ∧
      (add_new_task { initial_state with
          task_input_description := "   " } 7).2.2.scheduled_clear_ms = some 3000) :=
  spec_C6_add_invalid { initial_state with task_input_description := "   " } 7

/-- C7: toggling flips exactly the `completed` flag of the tasks whose id
matches, keeping position, id and description of every task (so length and
order are preserved); with no matching task the list is unchanged; and
toggling twice restores the original list. -/
theorem spec_C7_toggle (s : AppState) (task_id : String) :
    (toggle_task_completion s task_id).1.tasks_list.length = s.tasks_list.length ∧
    (∀ (i : Nat) (t : Task), s.tasks_list[i]? = some t →
      (toggle_task_completion s task_id).1.tasks_list[i]?
        = some { id := t.id, description := t.description,
                 completed := if t.id = task_id then !t.completed else t.completed }) ∧
    ((∀ t ∈ s.tasks_list, t.id ≠ task_id) →
      (toggle_task_completion s task_id).1.tasks_list = s.tasks_list) ∧
    (toggle_task_completion (toggle_task_completion s task_id).1 task_id).1.tasks_list
      = s.tasks_list := by
  refine ⟨?_, ?_, ?_, ?_⟩
  · simp [toggle_task_completion]
  · intro i t ht
    simp only [toggle_task_completion, List.getElem?_map, ht, Option.map_some]
    obtain ⟨tid, td, tc⟩ := t
    by_cases h : tid = task_id <;> simp [toggleFlip, h]
  · intro h
    simp only [toggle_task_completion]
    exact map_eq_self_of_forall _ _ fun t ht => by simp [toggleFlip, h t ht]
  · simp only [toggle_task_completion, List.map_map]
    exact map_eq_self_of_forall _ _ fun t _ => toggleFlip_involutive task_id t

/-- C7 witness: the toggle theorem applied to a concrete two-task list. -/
theorem spec_C7_witness :
    ((toggle_task_completion
        { initial_state with
          tasks_list := [{ id := "1", description := "a", completed := false },
                         { id := "2", description := "b", completed := true }] }
        "2").1.tasks_list.length
      = ({ initial_state with
           tasks_list := [{ id := "1", description := "a", completed := false },
                          { id := "2", description := "b", completed := true }] } :
          AppState).tasks_list.length) ∧
    (∀ (i : Nat) (t : Task),
      ({ initial_state with
         tasks_list := [{ id := "1", description := "a", completed := false },
                        { id := "2", description := "b", completed := true }] } :
        AppState).tasks_list[i]? = some t →
      (toggle_task_completion
        { initial_state with
          tasks_list := [{ id := "1", description := "a", completed := false },
                         { id := "2", description := "b", completed := true }] }
        "2").1.tasks_list[i]?
        = some { id := t.id, description := t.description,
                 completed := if t.id = "2" then !t.completed else t.completed }) ∧
    ((∀ t ∈ ({ initial_state with
        tasks_list := [{ id := "1", description := "a", completed := false },
                       { id := "2", description := "b", completed := true }] } :
        AppState).tasks_list, t.id ≠ "2") →
      (toggle_task_completion
        { initial_state with
          tasks_list := [{ id := "1", description := "a", completed := false },
                         { id := "2", description := "b", completed := true }] }
        "2").1.tasks_list
        = ({ initial_state with
             tasks_list := [{ id := "1", description := "a", completed := false },
                            { id := "2", description := "b", completed := true }] } :
            AppState).tasks_list) ∧
    ((toggle_task_completion
        (toggle_task_completion
          { initial_state with
            tasks_list := [{ id := "1", description := "a", completed := false },
                           { id := "2", description := "b", completed := true }] }
          "2").1
        "2").1.tasks_list
      = ({ initial_state with
           tasks_list := [{ id := "1", description := "a", completed := false },
                          { id := "2", description := "b", completed := true }] } :
          AppState).tasks_list) :=
  spec_C7_toggle
    { initial_state with
      tasks_list := [{ id := "1", description := "a", completed := false },
                     { id := "2", description := "b", completed := true }] }
    "2"

/-- C8: deleting removes every task carrying the given id, keeps all other
tasks with their multiplicities in their original relative order (the result
is a sublist of the original), recomputes `has_persisted_data` as "remaining
list non-empty", and is the identity on the list when no task matches. -/
theorem spec_C8_delete (s : AppState) (task_id : String) :
    (∀ t ∈ (delete_task s task_id).1.tasks_list, t.id ≠ task_id) ∧
    (delete_task s task_id).1.tasks_list.Sublist s.tasks_list ∧
    (∀ t, t.id ≠ task_id →
      ((delete_task s task_id).1.tasks_list.count t = s.tasks_list.count t)) ∧
    ((delete_task s task_id).1.has_persisted_data = true ↔
      (delete_task s task_id).1.tasks_list ≠ []) ∧
    ((∀ t ∈ s.tasks_list, t.id ≠ task_id) →
      (delete_task s task_id).1.tasks_list = s.tasks_list) := by
  refine ⟨?_, ?_, ?_, ?_, ?_⟩
  · intro t ht
    simp only [delete_task] at ht
    exact of_decide_eq_true (List.mem_filter.mp ht).2
  · simp only [delete_task]
    exact List.filter_sublist s.tasks_list
  · intro t ht
    simp only [delete_task]
    exact List.count_filter (by simpa using ht)
  · simp only [delete_task, decide_eq_true_iff]
    exact ⟨fun h => (List.length_pos.mp h), fun h => List.length_pos.mpr h⟩
  · intro h
    simp only [delete_task]
    exact List.filter_eq_self.mpr fun t ht => by simpa using h t ht

/-- C8 witness: the delete theorem applied to a concrete two-task list. -/
theorem spec_C8_witness :
    (∀ t ∈ (delete_task
        { initial_state with
          tasks_list := [{ id := "1", description := "a", completed := false },
                         { id := "2", description := "b", completed := true }] }
        "1").1.tasks_list, t.id ≠ "1") ∧
    (delete_task
        { initial_state with
          tasks_list := [{ id := "1", description := "a", completed := false },
                         { id := "2", description := "b", completed := true }] }
        "1").1.tasks_list.Sublist
      ({ initial_state with
         tasks_list := [{ id := "1", description := "a", completed := false },
                        { id := "2", description := "b", completed := true }] } :
        AppState).tasks_list ∧
    (∀ t : Task, t.id ≠ "1" →
      ((delete_task
          { initial_state with
            tasks_list := [{ id := "1", description := "a", completed := false },
                           { id := "2", description := "b", completed := true }] }
          "1").1.tasks_list.count t
        = ({ initial_state with
             tasks_list := [{ id := "1", description := "a", completed := false },
                            { id := "2", description := "b", completed := true }] } :
            AppState).tasks_list.count t)) ∧
    ((delete_task
        { initial_state with
          tasks_list := [{ id := "1", description := "a", completed := false },
                         { id := "2", description := "b", completed := true }] }
        "1").1.has_persisted_data = true ↔
      (delete_task
        { initial_state with
          tasks_list := [{ id := "1", description := "a", completed := false },
                         { id := "2", description := "b", completed := true }] }
        "1").1.tasks_list ≠ []) ∧
    ((∀ t ∈ ({ initial_state with
        tasks_list := [{ id := "1", description := "a", completed := false },
                       { id := "2", description := "b", completed := true }] } :
        AppState).tasks_list, t.id ≠ "1") →
      (delete_task
        { initial_state with
          tasks_list := [{ id := "1", description := "a", completed := false },
                         { id := "2", description := "b", completed := true }] }
        "1").1.tasks_list
        = ({ initial_state with
             tasks_list := [{ id := "1", description := "a", completed := false },
                            { id := "2", description := "b", completed := true }] } :
            AppState).tasks_list) :=
  spec_C8_delete
    { initial_state with
      tasks_list := [{ id := "1", description := "a", completed := false },
                     { id := "2", description := "b", completed := true }] }
    "1"

/-- C9: loading a slot that holds exactly what every write-through stores for
a task list (`encodeTasks`) reproduces that list: the loaded raw elements are
the encodings of the written tasks, in order, and reading them back yields
the written tasks themselves; the load ends with `app_status` initialized. -/
theorem spec_C9_round_trip (s : LoadState) (tasks : List Task)
    (storage : String → ReadOutcome)
    (hs : storage LOCAL_STORAGE_KEY = ReadOutcome.parsed (encodeTasks tasks)) :
    (load_tasks_from_local_storage s storage).tasks_list = tasks.map taskToJson ∧
    (load_tasks_from_local_storage s storage).tasks_list.map taskFromJson
      = tasks.map some ∧
    (load_tasks_from_local_storage s storage).app_status = AppStatus.initialized := by
  have hmap : tasks.map (fun t => taskFromJson (taskToJson t)) = tasks.map some :=
    List.map_congr_left fun t _ => taskFromJson_taskToJson t
  refine ⟨?_, ?_, ?_⟩ <;>
    simp [load_tasks_from_local_storage, load_body, hs, encodeTasks, List.map_map,
      Function.comp_def, hmap]

/-- C9 witness: the round-trip theorem applied to a concrete one-task list. -/
theorem spec_C9_witness :
    (load_tasks_from_local_storage
      { app_status := AppStatus.initialized, has_persisted_data := false,
        tasks_list := [], is_loading_tasks := true, error_message := none }
      (fun _ => ReadOutcome.parsed
        (encodeTasks [{ id := "1", description := "x", completed := false }]))).tasks_list
      = ([{ id := "1", description := "x", completed := false }] : List Task).map taskToJson ∧
    (load_tasks_from_local_storage
      { app_status := AppStatus.initialized, has_persisted_data := false,
        tasks_list := [], is_loading_tasks := true, error_message := none }
      (fun _ => ReadOutcome.parsed
        (encodeTasks [{ id := "1", description := "x", completed := false }]))).tasks_list.map
        taskFromJson
      = ([{ id := "1", description := "x", completed := false }] : List Task).map some ∧
    (load_tasks_from_local_storage
      { app_status := AppStatus.initialized, has_persisted_data := false,
        tasks_list := [], is_loading_tasks := true, error_message := none }
      (fun _ => ReadOutcome.parsed
        (encodeTasks [{ id := "1", description := "x", completed := false }]))).app_status
      = AppStatus.initialized :=
  spec_C9_round_trip _ _ _ rfl

/-- C2 counterexample: with a valid non-empty input, a failure thrown by the
`localStorage.setItem` write-through inside `add_new_task` is not caught —
it propagates to the caller as an uncaught error, contradicting the claim
that every storage failure is converted into state fields. -/
theorem spec_C2_counterexample :
    add_new_task_exc c5_state 42 (Except.error "QuotaExceededError")
      = Except.error "QuotaExceededError" := rfl

/-- C2 as amended: `load_tasks_from_local_storage` catches a storage-level
throw and converts it into state fields (tasks cleared, status
`local_storage_unavailable`, storage-unavailable message, loading flag
cleared), but the write-throughs inside `add_new_task`,
`toggle_task_completion` and `delete_task` are unguarded: an error thrown by
their `setItem` call propagates to the caller. -/
theorem spec_C2_error_handling (s : AppState) (ls : LoadState) (now : Nat)
    (task_id msg e : String) (storage : String → ReadOutcome)
    (hthrow : storage LOCAL_STORAGE_KEY = ReadOutcome.throws msg)
    (h1 : jsTrim s.task_input_description ≠ "")
    (h2 : (jsTrim s.task_input_description).length ≤ TASK_DESCRIPTION_MAX_LENGTH) :
    (load_tasks_from_local_storage ls storage).app_status
      = AppStatus.local_storage_unavailable ∧
    (load_tasks_from_local_storage ls storage).tasks_list = [] ∧
    (load_tasks_from_local_storage ls storage).error_message
      = some "Failed to load data from browser storage. Data might be corrupted or storage is full." ∧
    (load_tasks_from_local_storage ls storage).is_loading_tasks = false ∧
    add_new_task_exc s now (Except.error e) = Except.error e ∧
    toggle_task_completion_exc s task_id (Except.error e) = Except.error e ∧
    delete_task_exc s task_id (Except.error e) = Except.error e := by
  have h2' : ¬ (jsTrim s.task_input_description).length > TASK_DESCRIPTION_MAX_LENGTH :=
    Nat.not_lt.mpr h2
  refine ⟨?_, ?_, ?_, ?_, ?_, rfl, rfl⟩
  · simp [load_tasks_from_local_storage, load_body, hthrow]
  · simp [load_tasks_from_local_storage, load_body, hthrow]
  · simp [load_tasks_from_local_storage, load_body, hthrow]
  · simp [load_tasks_from_local_storage, load_body, hthrow]
  · simp [add_new_task_exc, run_write_through, add_new_task, h1, h2']

/-- C2 witness: the amended theorem applied at concrete inputs. -/
theorem spec_C2_witness :
    (load_tasks_from_local_storage
      { app_status := AppStatus.initialized, has_persisted_data := false,
        tasks_list := [], is_loading_tasks := true, error_message := none }
      (fun _ => ReadOutcome.throws "SecurityError")).app_status
      = AppStatus.local_storage_unavailable ∧
    (load_tasks_from_local_storage
      { app_status := AppStatus.initialized, has_persisted_data := false,
        tasks_list := [], is_loading_tasks := true, error_message := none }
      (fun _ => ReadOutcome.throws "SecurityError")).tasks_list = [] ∧
    (load_tasks_from_local_storage
      { app_status := AppStatus.initialized, has_persisted_data := false,
        tasks_list := [], is_loading_tasks := true, error_message := none }
      (fun _ => ReadOutcome.throws "SecurityError")).error_message
      = some "Failed to load data from browser storage. Data might be corrupted or storage is full." ∧
    (load_tasks_from_local_storage
      { app_status := AppStatus.initialized, has_persisted_data := false,
        tasks_list := [], is_loading_tasks := true, error_message := none }
      (fun _ => ReadOutcome.throws "SecurityError")).is_loading_tasks = false ∧
    add_new_task_exc c5_state 7 (Except.error "QuotaExceededError")
      = Except.error "QuotaExceededError" ∧
    toggle_task_completion_exc c5_state "1" (Except.error "QuotaExceededError")
      = Except.error "QuotaExceededError" ∧
    delete_task_exc c5_state "1" (Except.error "QuotaExceededError")
      = Except.error "QuotaExceededError" :=
  spec_C2_error_handling c5_state
    { app_status := AppStatus.initialized, has_persisted_data := false,
      tasks_list := [], is_loading_tasks := true, error_message := none }
    7 "1" "SecurityError" "QuotaExceededError"
    (fun _ => ReadOutcome.throws "SecurityError") rfl (by decide) (by decide)

/-- C3 counterexample: the value `add_new_task` writes through is the bare
JSON array of the tasks, not a JSON object with the two fields `tasks_list`
and `has_persisted_data`. -/
theorem spec_C3_counterexample :
    (add_new_task c5_state 42).2.2.written
      = some (LOCAL_STORAGE_KEY,
          Json.arr [taskToJson { id := "42", description := "buy milk", completed := false }]) ∧
    spec_two_field_obj
      (Json.arr [taskToJson { id := "42", description := "buy milk", completed := false }])
      = false := ⟨rfl, rfl⟩

/-- C3 as amended: every write-through stores, under the single key
`nex_task_tasks`, the JSON array of the tasks themselves — each an object
with exactly the keys `id`, `description`, `completed`, so none of the
transient fields is ever part of it — and `load_tasks_from_local_storage`
reads exactly that key; the two-field `tasks_list`/`has_persisted_data`
object is what the persist middleware's partialize selector retains, under
its own separate key `nex_task_store`. -/
theorem spec_C3_write_layout (s : AppState) (now : Nat) (task_id : String) (t : Task)
    (h1 : jsTrim s.task_input_description ≠ "")
    (h2 : (jsTrim s.task_input_description).length ≤ TASK_DESCRIPTION_MAX_LENGTH) :
    (add_new_task s now).2.2.written
      = some (LOCAL_STORAGE_KEY, encodeTasks (add_new_task s now).2.1.tasks_list) ∧
    (toggle_task_completion s task_id).2.written
      = some (LOCAL_STORAGE_KEY, encodeTasks (toggle_task_completion s task_id).1.tasks_list) ∧
    (delete_task s task_id).2.written
      = some (LOCAL_STORAGE_KEY, encodeTasks (delete_task s task_id).1.tasks_list) ∧
    topLevelKeys (taskToJson t) = ["id", "description", "completed"] ∧
    topLevelKeys (persistedSlice s) = ["tasks_list", "has_persisted_data"] ∧
    spec_two_field_obj (persistedSlice s) = true ∧
    PERSIST_MIDDLEWARE_KEY ≠ LOCAL_STORAGE_KEY ∧
    (∀ (storage storage2 : String → ReadOutcome) (ls : LoadState),
      storage LOCAL_STORAGE_KEY = storage2 LOCAL_STORAGE_KEY →
      load_tasks_from_local_storage ls storage
        = load_tasks_from_local_storage ls storage2) := by
  have h2' : ¬ (jsTrim s.task_input_description).length > TASK_DESCRIPTION_MAX_LENGTH :=
    Nat.not_lt.mpr h2
  refine ⟨?_, rfl, rfl, rfl, rfl, rfl, by decide, ?_⟩
  · simp [add_new_task, h1, h2']
  · intro storage storage2 ls hkey
    simp [load_tasks_from_local_storage, hkey]

/-- C3 witness: the amended layout theorem applied at concrete inputs. -/
theorem spec_C3_witness :
    (add_new_task c5_state 42).2.2.written
      = some (LOCAL_STORAGE_KEY, encodeTasks (add_new_task c5_state 42).2.1.tasks_list) ∧
    (toggle_task_completion c5_state "1").2.written
      = some (LOCAL_STORAGE_KEY,
          encodeTasks (toggle_task_completion c5_state "1").1.tasks_list) ∧
    (delete_task c5_state "1").2.written
      = some (LOCAL_STORAGE_KEY, encodeTasks (delete_task c5_state "1").1.tasks_list) ∧
    topLevelKeys (taskToJson { id := "9", description := "z", completed := true })
      = ["id", "description", "completed"] ∧
    topLevelKeys (persistedSlice c5_state) = ["tasks_list", "has_persisted_data"] ∧
    spec_two_field_obj (persistedSlice c5_state) = true ∧
    PERSIST_MIDDLEWARE_KEY ≠ LOCAL_STORAGE_KEY ∧
    (∀ (storage storage2 : String → ReadOutcome) (ls : LoadState),
      storage LOCAL_STORAGE_KEY = storage2 LOCAL_STORAGE_KEY →
      load_tasks_from_local_storage ls storage
        = load_tasks_from_local_storage ls storage2) :=
  spec_C3_write_layout c5_state 42 "1" { id := "9", description := "z", completed := true }
    (by decide) (by decide)

/-- The initial shape of the load-relevant state fields. -/
def initial_load_state : LoadState :=
  { app_status := AppStatus.initialized
    has_persisted_data := false
    tasks_list := []
    is_loading_tasks := true
    error_message := none }

/-- C4 counterexample: a stored value parsing to the array `[1]` is not a
sequence of Task-shaped records, yet the load accepts it verbatim — the
state ends with the non-Task element in `tasks_list`, `app_status`
initialized and no corruption message, not the claimed corruption outcome. -/
theorem spec_C4_counterexample :
    spec_task_shaped_seq (Json.arr [Json.num 1]) = false ∧
    (load_tasks_from_local_storage initial_load_state
      (fun _ => ReadOutcome.parsed (Json.arr [Json.num 1]))).tasks_list = [Json.num 1] ∧
    (load_tasks_from_local_storage initial_load_state
      (fun _ => ReadOutcome.parsed (Json.arr [Json.num 1]))).app_status
      = AppStatus.initialized ∧
    (load_tasks_from_local_storage initial_load_state
      (fun _ => ReadOutcome.parsed (Json.arr [Json.num 1]))).error_message = none :=
  ⟨rfl, rfl, rfl, rfl⟩

/-- C4 as amended: when the slot is present, the load validates only that the
parsed value is an array — any array is accepted verbatim as the new
`tasks_list` (no per-element Task-shape check), with `has_persisted_data` =
(length > 0) and `app_status` initialized; only a parsed non-array value is
treated as corruption, yielding `tasks_list = []`, `app_status = error` and
the message "Corrupted data in local storage.". -/
theorem spec_C4_load_shape (s : LoadState) (storage : String → ReadOutcome) (j : Json)
    (hs : storage LOCAL_STORAGE_KEY = ReadOutcome.parsed j) :
    (∀ elems, j = Json.arr elems →
      (load_tasks_from_local_storage s storage).tasks_list = elems ∧
      (load_tasks_from_local_storage s storage).has_persisted_data
        = decide (elems.length > 0) ∧
      (load_tasks_from_local_storage s storage).app_status = AppStatus.initialized ∧
      (load_tasks_from_local_storage s storage).error_message = s.error_message) ∧
    ((∀ elems, j ≠ Json.arr elems) →
      (load_tasks_from_local_storage s storage).tasks_list = [] ∧
      (load_tasks_from_local_storage s storage).app_status = AppStatus.error ∧
      (load_tasks_from_local_storage s storage).error_message
        = some "Corrupted data in local storage.") := by
  constructor
  · rintro elems rfl
    refine ⟨?_, ?_, ?_, ?_⟩ <;> simp [load_tasks_from_local_storage, load_body, hs]
  · intro hne
    refine ⟨?_, ?_, ?_⟩ <;>
      cases j <;> first
        | exact absurd rfl (hne _)
        | simp [load_tasks_from_local_storage, load_body, hs]

/-- C4 witness: the amended theorem applied to a concrete non-Task array. -/
theorem spec_C4_witness :
    (∀ elems, Json.arr [Json.num 1] = Json.arr elems →
      (load_tasks_from_local_storage initial_load_state
        (fun _ => ReadOutcome.parsed (Json.arr [Json.num 1]))).tasks_list = elems ∧
      (load_tasks_from_local_storage initial_load_state
        (fun _ => ReadOutcome.parsed (Json.arr [Json.num 1]))).has_persisted_data
        = decide (elems.length > 0) ∧
      (load_tasks_from_local_storage initial_load_state
        (fun _ => ReadOutcome.parsed (Json.arr [Json.num 1]))).app_status
        = AppStatus.initialized ∧
      (load_tasks_from_local_storage initial_load_state
        (fun _ => ReadOutcome.parsed (Json.arr [Json.num 1]))).error_message
        = initial_load_state.error_message) ∧
    ((∀ elems, Json.arr [Json.num 1] ≠ Json.arr elems) →
      (load_tasks_from_local_storage initial_load_state
        (fun _ => ReadOutcome.parsed (Json.arr [Json.num 1]))).tasks_list = [] ∧
      (load_tasks_from_local_storage initial_load_state
        (fun _ => ReadOutcome.parsed (Json.arr [Json.num 1]))).app_status
        = AppStatus.error ∧
      (load_tasks_from_local_storage initial_load_state
        (fun _ => ReadOutcome.parsed (Json.arr [Json.num 1]))).error_message
        = some "Corrupted data in local storage.") :=
  spec_C4_load_shape initial_load_state
    (fun _ => ReadOutcome.parsed (Json.arr [Json.num 1])) (Json.arr [Json.num 1]) rfl

/-- A reachable state in which `has_persisted_data` is stale: true while the
list is empty (reached by adding a task and then loading corrupted data,
which clears the list but leaves the flag untouched). -/
def c10_state : AppState :=
  { app_status := AppStatus.error
    has_persisted_data := true
    task_input_description := ""
    tasks_list := []
    is_loading_tasks := false
    error_message := some "Corrupted data in local storage." }

/-- C10 counterexample: for an id absent from the list, `delete_task` does
not always leave the in-memory state unchanged — it recomputes
`has_persisted_data` as (remaining length > 0), which flips the flag in a
state where it was stale. -/
theorem spec_C10_counterexample :
    (∀ t ∈ c10_state.tasks_list, t.id ≠ "x") ∧
    c10_state.has_persisted_data = true ∧
    (delete_task c10_state "x").1 ≠ c10_state ∧
    (delete_task c10_state "x").1.has_persisted_data = false := by decide

/-- C10 as amended: for an id with no matching task, `toggle_task_completion`
leaves the whole state unchanged and `delete_task` leaves `tasks_list`
unchanged while recomputing `has_persisted_data` as (length > 0) — so delete
leaves the whole state unchanged exactly when that flag was already
consistent — and both operations still perform the full-list write of the
unchanged `tasks_list` to the persisted storage key. -/
theorem spec_C10_noop_write (s : AppState) (task_id : String)
    (h : ∀ t ∈ s.tasks_list, t.id ≠ task_id) :
    (toggle_task_completion s task_id).1 = s ∧
    (toggle_task_completion s task_id).2.written
      = some (LOCAL_STORAGE_KEY, encodeTasks s.tasks_list) ∧
    (delete_task s task_id).1.tasks_list = s.tasks_list ∧
    (delete_task s task_id).1.has_persisted_data = decide (s.tasks_list.length > 0) ∧
    (s.has_persisted_data = decide (s.tasks_list.length > 0) →
      (delete_task s task_id).1 = s) ∧
    (delete_task s task_id).2.written
      = some (LOCAL_STORAGE_KEY, encodeTasks s.tasks_list) := by
  have hmap : s.tasks_list.map (toggleFlip task_id) = s.tasks_list :=
    map_eq_self_of_forall _ _ fun t ht => by simp [toggleFlip, h t ht]
  have hfil : s.tasks_list.filter (fun task => !decide (task.id = task_id))
      = s.tasks_list :=
    List.filter_eq_self.mpr fun t ht => by simp [h t ht]
  refine ⟨?_, ?_, ?_, ?_, ?_, ?_⟩
  · simp [toggle_task_completion, hmap]
  · simp [toggle_task_completion, hmap]
  · simp [delete_task, hfil]
  · simp [delete_task, hfil]
  · intro hcons
    have : s.tasks_list.filter (fun task => decide ¬task.id = task_id) = s.tasks_list :=
      List.filter_eq_self.mpr fun t ht => by simp [h t ht]
    simp only [delete_task, this]
    rw [← hcons]
  · simp [delete_task, hfil]

/-- C10 witness: the amended theorem applied to a concrete one-task state. -/
theorem spec_C10_witness :
    (toggle_task_completion
      { initial_state with
        tasks_list := [{ id := "1", description := "a", completed := false }] } "x").1
      = { initial_state with
          tasks_list := [{ id := "1", description := "a", completed := false }] } ∧
    (toggle_task_completion
      { initial_state with
        tasks_list := [{ id := "1", description := "a", completed := false }] } "x").2.written
      = some (LOCAL_STORAGE_KEY,
          encodeTasks ({ initial_state with
            tasks_list := [{ id := "1", description := "a", completed := false }] } :
            AppState).tasks_list) ∧
    (delete_task
      { initial_state with
        tasks_list := [{ id := "1", description := "a", completed := false }] } "x").1.tasks_list
      = ({ initial_state with
           tasks_list := [{ id := "1", description := "a", completed := false }] } :
          AppState).tasks_list ∧
    (delete_task
      { initial_state with
        tasks_list := [{ id := "1", description := "a", completed := false }] } "x").1.has_persisted_data
      = decide (({ initial_state with
          tasks_list := [{ id := "1", description := "a", completed := false }] } :
          AppState).tasks_list.length > 0) ∧
    (({ initial_state with
        tasks_list := [{ id := "1", description := "a", completed := false }] } :
        AppState).has_persisted_data
      = decide (({ initial_state with
          tasks_list := [{ id := "1", description := "a", completed := false }] } :
          AppState).tasks_list.length > 0) →
      (delete_task
        { initial_state with
          tasks_list := [{ id := "1", description := "a", completed := false }] } "x").1
        = { initial_state with
            tasks_list := [{ id := "1", description := "a", completed := false }] }) ∧
    (delete_task
      { initial_state with
        tasks_list := [{ id := "1", description := "a", completed := false }] } "x").2.written
      = some (LOCAL_STORAGE_KEY,
          encodeTasks ({ initial_state with
            tasks_list := [{ id := "1", description := "a", completed := false }] } :
            AppState).tasks_list) :=
  spec_C10_noop_write
    { initial_state with
      tasks_list := [{ id := "1", description := "a", completed := false }] }
    "x" (by decide)

end NexTask
